import Mathlib

/-!
# Verification of the Go banking lab (`src/bank.go`)

Shallow embedding of the concurrency lab's transaction-processing core:

* `Transaction` and `Ledger` mirror the Go structs (`bank.go` lines 14-25).
  Go's `int` is modelled as `Int`: all amounts and balances occurring in the
  program are a few thousand units, far below the 64-bit bounds, and none of
  the verified properties depends on wrap-around behaviour.
* `processTx` is the body of the worker loop of `transactionProcessor`
  (lines 62-92): the double-entry update for one transaction, together with
  the committed/rejected outcome.
* `transactionProcessor` is the worker loop itself: the single goroutine
  drains the channel one transaction at a time, so its effect on the ledger
  is a left fold of `processTx` over the list of received transactions, in
  channel (FIFO) order.
* `withdrawMutex` and `deposit` are the bodies of the critical sections of
  the Part-3 functions of the same names (lines 172-207).  The mutex `mu`
  makes each whole check-then-act sequence atomic, so a set of concurrent
  calls is equivalent to running the bodies sequentially in the order the
  lock is acquired; `mutexRun` executes such a lock-acquisition order.
* The Part-1 functions (`withdrawRace`) and the channel construction of
  `testChannelBased` are modelled where a claim needs them, further down.
-/

/-- Go struct `Transaction` (`bank.go` lines 14-19).  The Go field `Type`
is renamed `Type'` because `Type` is a Lean keyword; it holds the strings
"withdrawal" or "deposit" exactly as in the source. -/
structure Transaction where
  Amount : Int
  Source : String
  CustomerID : String
  Type' : String
  deriving Repr, DecidableEq

/-- Go struct `Ledger` (`bank.go` lines 22-25): double-entry balances used
by the channel-based (serializing) executor. -/
structure Ledger where
  CustomerBalance : Int
  BankBalance : Int
  deriving Repr, DecidableEq

/-- One iteration of the worker loop of `transactionProcessor`
(`bank.go` lines 75-90), without the logging calls: a withdrawal commits
(debit customer, credit bank) only when `CustomerBalance >= Amount` and is
rejected otherwise; a deposit commits unconditionally (credit customer,
debit bank); a transaction of any other type leaves the ledger untouched.
Returns the updated ledger and whether the transaction was committed. -/
def processTx (ledger : Ledger) (tx : Transaction) : Ledger × Bool :=
  if tx.Type' = "withdrawal" then
    if ledger.CustomerBalance ≥ tx.Amount then
      (⟨ledger.CustomerBalance - tx.Amount, ledger.BankBalance + tx.Amount⟩, true)
    else
      (ledger, false)
  else if tx.Type' = "deposit" then
    (⟨ledger.CustomerBalance + tx.Amount, ledger.BankBalance - tx.Amount⟩, true)
  else
    (ledger, false)

/-- The worker loop of `transactionProcessor` (`bank.go` lines 62-92):
the single worker drains the channel, processing the received transactions
strictly one at a time in FIFO order, so its effect on the ledger is the
left fold of `processTx` over the received list. -/
def transactionProcessor (ledger : Ledger) (txs : List Transaction) : Ledger :=
  txs.foldl (fun l tx => (processTx l tx).1) ledger

/-- Like `transactionProcessor`, but also records, in order, whether each
transaction was committed (`true`) or rejected (`false`). -/
def processOutcomes : Ledger → List Transaction → Ledger × List Bool
  | l, [] => (l, [])
  | l, tx :: rest =>
      let r := processTx l tx
      let s := processOutcomes r.1 rest
      (s.1, r.2 :: s.2)

/-- All transactions of the run were committed. -/
def allCommitted (l : Ledger) (txs : List Transaction) : Bool :=
  (processOutcomes l txs).2.all id

/-- Initial value of the process-wide global `var balance int = 1000`
(`bank.go` line 10), shared by the Part-1 (race) and Part-3 (mutex)
functions and reset to 1000 by each test scenario that uses it. -/
def balance : Int := 1000

/-- Body of the critical section of `withdrawMutex` (`bank.go` lines
181-190): executed with `mu` held, so the check and the decrement are
atomic with respect to every other lock-guarded access.  Returns the new
value of the global `balance` and whether the withdrawal succeeded. -/
def withdrawMutex (b amount : Int) : Int × Bool :=
  if b ≥ amount then (b - amount, true) else (b, false)

/-- Body of the critical section of `deposit` (`bank.go` lines 203-204):
executed with `mu` held; always succeeds, adding the amount. -/
def deposit (b amount : Int) : Int := b + amount

/-- A request issued to the lock-guarded executor: a call of
`withdrawMutex` or of `deposit`. -/
inductive MutexOp where
  | withdraw (amount : Int)
  | deposit (amount : Int)
  deriving Repr, DecidableEq

/-- The amount carried by a lock-guarded request. -/
def MutexOp.amount : MutexOp → Int
  | .withdraw a => a
  | .deposit a => a

/-- Execute one lock-guarded request against the global balance. -/
def mutexStep (b : Int) : MutexOp → Int × Bool
  | .withdraw a => withdrawMutex b a
  | .deposit a => (deposit b a, true)

/-- Run a sequence of lock-guarded requests in the order the lock is
acquired (the mutex `mu` serializes the whole critical sections, so every
concurrent execution of the Part-3 functions is equivalent to one such
sequential order).  Returns the final global balance and, in order, the
success flag of each request. -/
def mutexRun : Int → List MutexOp → Int × List Bool
  | b, [] => (b, [])
  | b, op :: rest =>
      let r := mutexStep b op
      let s := mutexRun r.1 rest
      (s.1, r.2 :: s.2)

/-- Sum of the amounts of the deposits committed during a lock-guarded
run (every deposit commits). -/
def committedDeposits : Int → List MutexOp → Int
  | _, [] => 0
  | b, op :: rest =>
      let r := mutexStep b op
      (match op with
        | .deposit a => a
        | .withdraw _ => 0) + committedDeposits r.1 rest

/-- Sum of the amounts of the withdrawals committed (guard passed) during
a lock-guarded run. -/
def committedWithdrawals : Int → List MutexOp → Int
  | _, [] => 0
  | b, op :: rest =>
      let r := mutexStep b op
      (match op, r.2 with
        | .withdraw a, true => a
        | _, _ => 0) + committedWithdrawals r.1 rest

/-- Number of successful requests in an outcome list. -/
def successCount (outcomes : List Bool) : Nat := outcomes.count true

/-- The unsynchronized `withdrawRace` (`bank.go` lines 30-39) run by two
concurrent goroutines under the interleaving its 500 ms sleeps force, the
one described by `testComparison` (lines 270-273): both goroutines read the
shared global balance and evaluate the `balance >= amount` check before
either writes, then each goroutine that passed its check decrements the
global.  Returns the resulting value of the global `balance`. -/
def withdrawRaceBoth (b a1 a2 : Int) : Int :=
  (if b ≥ a1 then b - a1 else b) - (if b ≥ a2 then a2 else 0)

/-- Capacity of the transaction channel of `testChannelBased`
(`bank.go` line 109): `make(chan Transaction)` takes no buffer size, so
the channel is unbuffered — capacity 0. -/
def txChanCapacity : Nat := 0

/-- Go channel-send semantics for a channel of the given capacity with
`queued` values currently buffered: the send completes immediately when
there is buffer room or a receiver is ready on the channel; otherwise the
sending goroutine blocks. -/
def sendBlocks (cap queued : Nat) (receiverReady : Bool) : Bool :=
  !(decide (queued < cap) || receiverReady)

/-- The four transactions submitted in `testChannelBased`
(`bank.go` lines 115-153), in the submission order named by the spec:
withdrawal 700, withdrawal 500, withdrawal 400, deposit 1500. -/
def txs4 : List Transaction :=
  [⟨700, "Phone Transfer", "CUST1001", "withdrawal"⟩,
   ⟨500, "ATM Withdrawal", "CUST1001", "withdrawal"⟩,
   ⟨400, "Online Purchase", "CUST1001", "withdrawal"⟩,
   ⟨1500, "Salary Deposit", "CUST1001", "deposit"⟩]

/-- The initial ledger of `testChannelBased` (`bank.go` lines 100-103). -/
def initialLedger : Ledger := ⟨1000, 5000⟩

/-- The `balance = 1000` reset at the start of `testMutex` (line 213) and
of every run of `testComparison` (lines 249, 259): whatever value a prior
scenario left in the global, the scenario starts from 1000. -/
def resetBalance (_prior : Int) : Int := 1000

/-- The two possible lock-acquisition orders of the two goroutines
launched in `testMutex` (lines 220-221) and `testComparison`
(lines 262-263): `mu` serializes the whole critical sections, so every
interleaving of the two calls is equivalent to one of these two orders. -/
def testMutexOrder (phoneFirst : Bool) : List MutexOp :=
  if phoneFirst then [.withdraw 700, .withdraw 500]
  else [.withdraw 500, .withdraw 700]

/-! ## Helper lemmas -/

/-- One `processTx` step preserves the sum of the two balances. -/
theorem processTx_sum (l : Ledger) (tx : Transaction) :
    ((processTx l tx).1).CustomerBalance + ((processTx l tx).1).BankBalance
      = l.CustomerBalance + l.BankBalance := by
  unfold processTx
  split_ifs <;> simp

/-- The serializing worker preserves the sum of the two balances. -/
theorem transactionProcessor_sum (l : Ledger) (txs : List Transaction) :
    (transactionProcessor l txs).CustomerBalance + (transactionProcessor l txs).BankBalance
      = l.CustomerBalance + l.BankBalance := by
  induction txs generalizing l with
  | nil => rfl
  | cons tx rest ih =>
      have h1 : transactionProcessor l (tx :: rest)
          = transactionProcessor (processTx l tx).1 rest := rfl
      rw [h1, ih]
      exact processTx_sum l tx

/-- Accounting identity for the lock-guarded executor: the final global
balance is the initial one plus committed deposits minus committed
withdrawals. -/
theorem mutexRun_balance (b : Int) (ops : List MutexOp) :
    (mutexRun b ops).1 = b + committedDeposits b ops - committedWithdrawals b ops := by
  induction ops generalizing b with
  | nil => simp [mutexRun, committedDeposits, committedWithdrawals]
  | cons op rest ih =>
      cases op with
      | withdraw a =>
          by_cases h : b ≥ a
          · simp only [mutexRun, committedDeposits, committedWithdrawals, mutexStep,
              withdrawMutex, if_pos h, ih]
            ring
          · simp only [mutexRun, committedDeposits, committedWithdrawals, mutexStep,
              withdrawMutex, if_neg h, ih]
            ring
      | deposit a =>
          simp only [mutexRun, committedDeposits, committedWithdrawals, mutexStep,
            deposit, ih]
          ring

/-- A deposit transaction is processed unconditionally: credit the
customer, debit the bank, and report commit. -/
theorem processTx_deposit_eq (l : Ledger) (tx : Transaction) (h : tx.Type' = "deposit") :
    processTx l tx = (⟨l.CustomerBalance + tx.Amount, l.BankBalance - tx.Amount⟩, true) := by
  unfold processTx
  rw [if_neg (by rw [h]; decide), if_pos h]

/-- The serializing worker keeps the customer balance non-negative when
all submitted amounts are positive. -/
theorem transactionProcessor_customer_nonneg (l : Ledger) (txs : List Transaction)
    (h0 : 0 ≤ l.CustomerBalance) (hpos : ∀ tx ∈ txs, 0 < tx.Amount) :
    0 ≤ (transactionProcessor l txs).CustomerBalance := by
  induction txs generalizing l with
  | nil => exact h0
  | cons tx rest ih =>
      have hstep : 0 ≤ ((processTx l tx).1).CustomerBalance := by
        have ha : 0 < tx.Amount := hpos tx (List.mem_cons_self tx rest)
        unfold processTx
        split_ifs with h1 h2 h3
        · simp only
          omega
        · exact h0
        · simp only
          omega
        · exact h0
      have h1 : transactionProcessor l (tx :: rest)
          = transactionProcessor (processTx l tx).1 rest := rfl
      rw [h1]
      exact ih _ hstep (fun t ht => hpos t (List.mem_cons_of_mem tx ht))

/-- The lock-guarded executor keeps the global balance non-negative when
all requested amounts are positive. -/
theorem mutexRun_nonneg (b : Int) (ops : List MutexOp)
    (h0 : 0 ≤ b) (hpos : ∀ op ∈ ops, 0 < op.amount) :
    0 ≤ (mutexRun b ops).1 := by
  induction ops generalizing b with
  | nil => exact h0
  | cons op rest ih =>
      have hstep : 0 ≤ (mutexStep b op).1 := by
        have ha : 0 < op.amount := hpos op (List.mem_cons_self op rest)
        cases op with
        | withdraw a =>
            simp only [mutexStep, withdrawMutex]
            split_ifs with h
            · simp only
              omega
            · exact h0
        | deposit a =>
            simp only [MutexOp.amount] at ha
            simp only [mutexStep, deposit]
            omega
      have h1 : (mutexRun b (op :: rest)).1 = (mutexRun (mutexStep b op).1 rest).1 := rfl
      rw [h1]
      exact ih _ hstep (fun t ht => hpos t (List.mem_cons_of_mem op ht))

/-! ## Claim theorems -/

/-- Claim C1: conservation invariant.  Every transaction processed by the
serializing executor — committed or rejected — leaves the sum
`CustomerBalance + BankBalance` unchanged, so after any sequence the sum
equals its initial value; and for the lock-guarded single-balance form,
the final balance equals the initial balance plus the sum of committed
deposit amounts minus the sum of committed withdrawal amounts. -/
theorem C1_conservation_invariant :
    (∀ (l : Ledger) (tx : Transaction),
        ((processTx l tx).1).CustomerBalance + ((processTx l tx).1).BankBalance
          = l.CustomerBalance + l.BankBalance)
    ∧ (∀ (l : Ledger) (txs : List Transaction),
        (transactionProcessor l txs).CustomerBalance
            + (transactionProcessor l txs).BankBalance
          = l.CustomerBalance + l.BankBalance)
    ∧ (∀ (b : Int) (ops : List MutexOp),
        (mutexRun b ops).1 = b + committedDeposits b ops - committedWithdrawals b ops) :=
  ⟨processTx_sum, transactionProcessor_sum, mutexRun_balance⟩

/-- Claim C2: non-negativity.  Starting from a non-negative customer
balance, with all transaction amounts positive, the customer balance of
the serializing executor and the global balance of the lock-guarded
executor stay non-negative after any sequence of processed transactions
(hence in every reachable state, since every reachable state is the
result of such a sequence); moreover a withdrawal commits only when the
balance at commit time is at least the amount, the check being atomic
with the commit in both executors. -/
theorem C2_non_negativity :
    (∀ (l : Ledger) (txs : List Transaction), 0 ≤ l.CustomerBalance →
        (∀ tx ∈ txs, 0 < tx.Amount) →
        0 ≤ (transactionProcessor l txs).CustomerBalance)
    ∧ (∀ (b : Int) (ops : List MutexOp), 0 ≤ b →
        (∀ op ∈ ops, 0 < op.amount) → 0 ≤ (mutexRun b ops).1)
    ∧ (∀ (l : Ledger) (tx : Transaction), tx.Type' = "withdrawal" →
        (processTx l tx).2 = true → tx.Amount ≤ l.CustomerBalance)
    ∧ (∀ b a : Int, (withdrawMutex b a).2 = true → a ≤ b) := by
  refine ⟨transactionProcessor_customer_nonneg, mutexRun_nonneg, ?_, ?_⟩
  · intro l tx ht hc
    unfold processTx at hc
    rw [if_pos ht] at hc
    by_cases h : l.CustomerBalance ≥ tx.Amount
    · exact h
    · rw [if_neg h] at hc
      simp at hc
  · intro b a hc
    unfold withdrawMutex at hc
    by_cases h : b ≥ a
    · exact h
    · rw [if_neg h] at hc
      simp at hc

/-- Closed instance of claim C2: non-negativity at the concrete scenarios
of `testChannelBased` and `testMutex`, and the atomic guard at balance
1000 and amount 700. -/
theorem C2_non_negativity_witness :
    0 ≤ (transactionProcessor initialLedger txs4).CustomerBalance
    ∧ 0 ≤ (mutexRun 1000 [MutexOp.withdraw 700, MutexOp.withdraw 500]).1
    ∧ (700 : Int) ≤ (1000 : Int)
    ∧ (500 : Int) ≤ (1000 : Int) :=
  ⟨C2_non_negativity.1 initialLedger txs4 (by decide) (by decide),
   C2_non_negativity.2.1 1000 [MutexOp.withdraw 700, MutexOp.withdraw 500]
     (by decide) (by decide),
   C2_non_negativity.2.2.1 initialLedger
     ⟨700, "Phone Transfer", "CUST1001", "withdrawal"⟩ rfl (by decide),
   C2_non_negativity.2.2.2 1000 500 (by decide)⟩

/-- Claim C3: at-most-one-winner under contention.  From initial balance
1000, for either order in which the two lock-guarded withdrawals of 700
and 500 acquire the mutex — and every interleaving is equivalent to one
of the two orders, since the whole check-then-act section runs under the
lock — exactly one withdrawal succeeds, the final balance is 300 or 500,
and the balance is never negative. -/
theorem C3_at_most_one_winner :
    ∀ phoneFirst : Bool,
      successCount (mutexRun 1000 (testMutexOrder phoneFirst)).2 = 1
      ∧ ((mutexRun 1000 (testMutexOrder phoneFirst)).1 = 300
          ∨ (mutexRun 1000 (testMutexOrder phoneFirst)).1 = 500)
      ∧ 0 ≤ (mutexRun 1000 (testMutexOrder phoneFirst)).1 := by
  decide

/-- Claim C4: serialization determinism.  For the ordered submissions
withdrawal 700, withdrawal 500, withdrawal 400, deposit 1500 processed by
the serializing executor: from any initial ledger from which all four
commit in submission order, the final state is the initial one with the
customer balance decreased by 700 + 500 + 400 - 1500 = 100 and the bank
balance increased by 100 — at the claimed initial state {1000, 5000}
this is the claimed {900, 5100}; and from any initial ledger whose total
is 6000 — whichever subset of the withdrawals is rejected for
insufficient funds — the final total is still 6000, because a rejected
withdrawal leaves both balances untouched. -/
theorem C4_serialization_determinism :
    (∀ l : Ledger, allCommitted l txs4 = true →
        transactionProcessor l txs4
          = ⟨l.CustomerBalance - 100, l.BankBalance + 100⟩)
    ∧ (∀ l : Ledger, l.CustomerBalance + l.BankBalance = 6000 →
        (transactionProcessor l txs4).CustomerBalance
            + (transactionProcessor l txs4).BankBalance = 6000)
    ∧ ((1000 : Int) - 700 - 500 - 400 + 1500 = 900
        ∧ (5000 : Int) + 700 + 500 + 400 - 1500 = 5100) := by
  refine ⟨?_, ?_, by decide⟩
  · intro l h
    simp [allCommitted, txs4, processOutcomes, processTx] at h
    split_ifs at h with h1 h2 h3
    · simp [transactionProcessor, txs4, processTx, h1, h2, h3]
      constructor <;> omega
    all_goals simp at h
  · intro l h
    rw [transactionProcessor_sum l txs4]
    exact h

/-- Closed instance of claim C4: from the ledger {1600, 4400} all four
submissions of `testChannelBased` commit in order and the final state is
the predicted one, and from the actual initial ledger {1000, 5000} the
final total is 6000. -/
theorem C4_serialization_determinism_witness :
    transactionProcessor ⟨1600, 4400⟩ txs4
      = ⟨(1600 : Int) - 100, (4400 : Int) + 100⟩
    ∧ (transactionProcessor initialLedger txs4).CustomerBalance
        + (transactionProcessor initialLedger txs4).BankBalance = 6000 :=
  ⟨C4_serialization_determinism.1 ⟨1600, 4400⟩ (by decide),
   C4_serialization_determinism.2.1 initialLedger (by decide)⟩

/-- Claim C5: insufficient funds is a normal outcome that leaves the
state unmodified.  In the serializing executor, a withdrawal whose amount
exceeds the customer balance returns the ledger unchanged in every field
together with the rejection flag; in the lock-guarded executor, a
withdrawal whose amount exceeds the balance returns the balance unchanged
together with the failure flag.  Both are total functions returning a
normal result value, so the outcome never aborts or propagates as a
fault. -/
theorem C5_insufficient_funds_unmodified :
    (∀ (l : Ledger) (tx : Transaction), tx.Type' = "withdrawal" →
        l.CustomerBalance < tx.Amount → processTx l tx = (l, false))
    ∧ (∀ b a : Int, b < a → withdrawMutex b a = (b, false)) := by
  constructor
  · intro l tx ht hlt
    unfold processTx
    rw [if_pos ht, if_neg (by omega)]
  · intro b a hlt
    unfold withdrawMutex
    rw [if_neg (by omega)]

/-- Closed instance of claim C5: the withdrawal of 500 rejected at the
ledger {300, 5700} and at the global balance 300. -/
theorem C5_insufficient_funds_witness :
    (300 : Int) < 500
    ∧ processTx ⟨300, 5700⟩ ⟨500, "ATM Withdrawal", "CUST1001", "withdrawal"⟩
        = (⟨300, 5700⟩, false)
    ∧ withdrawMutex 300 500 = (300, false) :=
  ⟨by decide,
   C5_insufficient_funds_unmodified.1 ⟨300, 5700⟩
     ⟨500, "ATM Withdrawal", "CUST1001", "withdrawal"⟩ rfl (by decide),
   C5_insufficient_funds_unmodified.2 300 500 (by decide)⟩

/-- Claim C6: in the serializing executor a deposit always succeeds —
it commits unconditionally, with no funds check, adding the amount to the
customer balance and subtracting the same amount from the bank
balance. -/
theorem C6_deposit_always_succeeds :
    ∀ (l : Ledger) (tx : Transaction), tx.Type' = "deposit" →
      processTx l tx
        = (⟨l.CustomerBalance + tx.Amount, l.BankBalance - tx.Amount⟩, true) :=
  processTx_deposit_eq

/-- Closed instance of claim C6: the salary deposit of 1500 committed at
the ledger {1000, 5000}. -/
theorem C6_deposit_always_succeeds_witness :
    processTx initialLedger ⟨1500, "Salary Deposit", "CUST1001", "deposit"⟩
      = (⟨(1000 : Int) + 1500, (5000 : Int) - 1500⟩, true) :=
  C6_deposit_always_succeeds initialLedger
    ⟨1500, "Salary Deposit", "CUST1001", "deposit"⟩ rfl

/-- Counterexample to claim C7.  The Unsynchronized and Lock-Guarded
executors do not use dedicated Ledger instances: both `withdrawRace` and
`withdrawMutex` read and write the single process-wide global
`var balance int = 1000` (`bank.go` line 10).  Concretely, a run of the
unsynchronized executor from the initial global value leaves the shared
global at -200, and a lock-guarded withdrawal of 500 issued afterwards
(without the test's reset) observes that corrupted value and is rejected,
whereas on a dedicated ledger still holding the initial 1000 it would
succeed with balance 500 — so the unsynchronized executor's mutations do
corrupt the state used by the lock-guarded strategy. -/
theorem C7_ledger_isolation_counterexample :
    withdrawRaceBoth balance 700 500 = -200
    ∧ withdrawMutex (withdrawRaceBoth balance 700 500) 500 = (-200, false)
    ∧ withdrawMutex balance 500 = (500, true) := by
  decide

/-- Claim C7 as amended: the Serializing Executor's ledger is a dedicated
local instance, but the Unsynchronized and Lock-Guarded executors share
the process-wide global `balance`; isolation between test scenarios is
achieved only by the explicit `balance = 1000` reset each scenario
performs, after which the lock-guarded outcomes are independent of
whatever value an earlier scenario left in the global. -/
theorem C7_ledger_isolation_amended :
    ∀ prior : Int,
      (mutexRun (resetBalance prior) (testMutexOrder true)).1 = 300
      ∧ (mutexRun (resetBalance prior) (testMutexOrder false)).1 = 500
      ∧ successCount (mutexRun (resetBalance prior) (testMutexOrder true)).2 = 1
      ∧ successCount (mutexRun (resetBalance prior) (testMutexOrder false)).2 = 1 :=
  fun _ => ⟨rfl, rfl, rfl, rfl⟩

/-- Counterexample to claim C8.  The submission channel of
`testChannelBased` is created by `make(chan Transaction)` with no buffer
size, so its capacity is 0, not unbounded; by Go's channel-send
semantics, a send with no buffer room and no receiver ready — e.g. while
the single worker is inside its 300 ms processing of a previous
transaction — blocks the producer. -/
theorem C8_non_blocking_counterexample :
    txChanCapacity = 0
    ∧ sendBlocks txChanCapacity 0 false = true := by
  decide

/-- Claim C8 as amended: submission to the serializing executor is not
non-blocking — the channel is unbuffered, so a producer's send completes
without blocking exactly when the worker is ready to receive
(a rendezvous), and blocks otherwise; the single channel still delivers
the transactions to the single worker in the order the sends complete. -/
theorem C8_non_blocking_amended :
    ∀ (queued : Nat) (receiverReady : Bool),
      sendBlocks txChanCapacity queued receiverReady = !receiverReady := by
  intro queued receiverReady
  simp [sendBlocks, txChanCapacity]

/-- Claim C10: the bank balance is not protected by any non-negativity
guard — a deposit commits unconditionally and decrements the bank
balance, so deposits exceeding the initial bank balance drive it
negative; concretely a single deposit of 6000 against the initial ledger
{1000, 5000} leaves the bank balance at -1000, which is negative. -/
theorem C10_bank_balance_unguarded :
    (∀ (l : Ledger) (tx : Transaction), tx.Type' = "deposit" →
        (processTx l tx).2 = true
        ∧ ((processTx l tx).1).BankBalance = l.BankBalance - tx.Amount)
    ∧ ((processTx initialLedger
          ⟨6000, "Salary Deposit", "CUST1001", "deposit"⟩).1).BankBalance = -1000
    ∧ ((processTx initialLedger
          ⟨6000, "Salary Deposit", "CUST1001", "deposit"⟩).1).BankBalance < 0 := by
  refine ⟨?_, by decide, by decide⟩
  intro l tx h
  rw [processTx_deposit_eq l tx h]
  exact ⟨rfl, rfl⟩

/-- Closed instance of claim C10: a deposit of 100 against the empty
ledger commits and leaves the bank balance at 0 - 100. -/
theorem C10_bank_balance_unguarded_witness :
    (processTx ⟨0, 0⟩ ⟨100, "Salary Deposit", "CUST1001", "deposit"⟩).2 = true
    ∧ ((processTx ⟨0, 0⟩
          ⟨100, "Salary Deposit", "CUST1001", "deposit"⟩).1).BankBalance
        = (0 : Int) - 100 :=
  C10_bank_balance_unguarded.1 ⟨0, 0⟩
    ⟨100, "Salary Deposit", "CUST1001", "deposit"⟩ rfl

/-- Possibility underlying the race-reproducibility scenario (spec §8.5),
stated without its probabilistic "over many trials" wrapper: the
interleaving of the unsynchronized executor in which both goroutines pass
the balance check before either writes yields the final balance -200,
which is inconsistent with exactly one of the two withdrawals having
succeeded (it is neither 300 nor 500, and is negative). -/
theorem withdrawRaceBoth_inconsistent_outcome :
    withdrawRaceBoth 1000 700 500 = -200
    ∧ withdrawRaceBoth 1000 700 500 ≠ 300
    ∧ withdrawRaceBoth 1000 700 500 ≠ 500
    ∧ withdrawRaceBoth 1000 700 500 < 0 := by
  decide
